import Mathlib

/-!
Shallow embedding of the role-resolution and group-membership core of the
ParentingBackend repository (src/users/userRole.js, src/groups/groupController.js,
src/groups/groupMembership.js, src/moderation/moderationController.js,
src/services/roleAggregateService.js), together with theorems settling the
frozen claims about it.

Identifiers (Mongo ObjectIds) are modelled as `Nat`, dates as `Nat` timestamps,
and each Mongoose `findOne` as `List.find?` over the stored records (first
match), which is faithful for the states the claims quantify over.
-/

namespace ParentingBackend

/-- Permission tokens, from the `permissions` enum of userRole.js. -/
inductive Perm where
  | create_community
  | edit_community
  | delete_community
  | assign_moderators
  | approve_experts
  | manage_groups
  | moderate_posts
  | ban_users
  | view_reports
  | mark_best_answer
  | pin_posts
  | edit_group
  | delete_group
deriving DecidableEq, Repr

/-- Role kinds, from the `role` enum of userRole.js. -/
inductive Role where
  | admin
  | expert
  | moderator
  | groupAdmin
  | user
deriving DecidableEq, Repr

/-- Expert verification status, from the `verificationStatus` enum of userRole.js. -/
inductive VerifStatus where
  | pending
  | verified
  | rejected
deriving DecidableEq, Repr

/-- One document of the UserRole collection (userRole.js schema), with the
fields the resolver and the claims touch. -/
structure RoleRecord where
  userId : Nat
  role : Role
  communityId : Option Nat
  groupId : Option Nat
  permissions : List Perm
  isActive : Bool
  verificationStatus : VerifStatus
  verifiedAt : Option Nat
  verifiedBy : Option Nat
deriving DecidableEq, Repr

/-- The role-to-permission table of the pre-save hook (userRole.js lines
100-138) for the four roles the switch handles.  The hook has no case for
`groupAdmin`, so that role keeps whatever permissions the record already
had; see `applyPreSave`. -/
def defaultPermissions : Role → List Perm
  | .admin =>
      [.create_community, .edit_community, .delete_community, .assign_moderators,
       .approve_experts, .manage_groups, .moderate_posts, .ban_users,
       .view_reports, .pin_posts, .edit_group, .delete_group]
  | .moderator => [.moderate_posts, .ban_users, .view_reports, .pin_posts]
  | .expert => [.mark_best_answer]
  | .user => []
  | .groupAdmin => []

/-- The pre-save middleware of userRole.js applied to a new record or a record
whose role changed: it overwrites `permissions` by the role table, except for
`groupAdmin`, which the switch does not mention. -/
def applyPreSave (r : RoleRecord) : RoleRecord :=
  match r.role with
  | .groupAdmin => r
  | _ => { r with permissions := defaultPermissions r.role }

/-- Instance method `hasPermission` (userRole.js lines 155-157):
`this.isActive && this.permissions.includes(permission)`.
Note that it does not consult `verificationStatus`. -/
def RoleRecord.hasPermission (r : RoleRecord) (p : Perm) : Bool :=
  r.isActive && r.permissions.contains p

/-- Instance method `verify` (userRole.js lines 141-146): sets
verificationStatus to verified and records who verified and when. -/
def RoleRecord.verify (r : RoleRecord) (verifiedBy now : Nat) : RoleRecord :=
  { r with verificationStatus := .verified, verifiedAt := some now,
           verifiedBy := some verifiedBy }

/-- The platform-admin lookup of `userHasPermission` (userRole.js lines
186-192): first active record with role admin and both scope ids null. -/
def findAdminRole (db : List RoleRecord) (userId : Nat) : Option RoleRecord :=
  db.find? (fun r =>
    r.userId == userId && r.role == Role.admin && r.isActive &&
    r.communityId == none && r.groupId == none)

/-- The `$or` scope filter built by `userHasPermission` (userRole.js lines
199-211).  The `groupId` clause is assigned to `query.$or` after the
`communityId` clause and therefore replaces it whenever a group id is given:
a group-scoped query constrains only the record's groupId. -/
def scopeFilter (communityId groupId : Option Nat) (r : RoleRecord) : Bool :=
  match groupId with
  | some g => r.groupId == some g || r.groupId == none
  | none =>
    match communityId with
    | some c => r.communityId == some c || r.communityId == none
    | none => true

/-- The first phase of `userHasPermission` (userRole.js lines 186-196): true
when the platform-wide admin record exists and its own permission list
contains the token. -/
def adminShortcut (db : List RoleRecord) (userId : Nat) (p : Perm) : Bool :=
  match findAdminRole db userId with
  | some adminRole => adminRole.hasPermission p
  | none => false

/-- Static method `userHasPermission` (userRole.js lines 184-215): platform
admin check first, then the scoped query with `some record.hasPermission`. -/
def userHasPermission (db : List RoleRecord) (userId : Nat) (p : Perm)
    (communityId groupId : Option Nat) : Bool :=
  if adminShortcut db userId p then true
  else
    (db.filter (fun r => r.userId == userId && r.isActive &&
      scopeFilter communityId groupId r)).any (fun r => r.hasPermission p)

/-- Membership status, from the `status` enum of groupMembership.js. -/
inductive MStatus where
  | active
  | pending
  | banned
  | left
deriving DecidableEq, Repr

/-- Group-local membership role, from the `role` enum of groupMembership.js. -/
inductive MRole where
  | member
  | moderator
  | admin
deriving DecidableEq, Repr

/-- One document of the GroupMembership collection (groupMembership.js schema). -/
structure Membership where
  groupId : Nat
  userId : Nat
  status : MStatus
  role : MRole
  joinedAt : Nat
  approvedAt : Option Nat
  approvedBy : Option Nat
  bannedAt : Option Nat
  bannedBy : Option Nat
  banReason : Option String
  leftAt : Option Nat
  requestMessage : Option String
deriving DecidableEq, Repr

/-- Group visibility type, from the `type` enum of group.js. -/
inductive GType where
  | Public
  | Private
  | Secret
deriving DecidableEq, Repr

/-- One document of the Group collection (group.js schema), restricted to the
fields the membership lifecycle touches.  `memberCount` defaults to 1 on
creation ("Creator is automatically a member"). -/
structure Group where
  id : Nat
  communityId : Nat
  createdBy : Nat
  type : GType
  memberCount : Nat
deriving DecidableEq, Repr

/-- The persistent state the controllers read and write: the Group,
GroupMembership and UserRole collections plus the ids of existing
communities. -/
structure St where
  communities : List Nat
  groups : List Group
  memberships : List Membership
  roles : List RoleRecord
deriving DecidableEq, Repr

/-- An HTTP-level controller response: success, or `res.status(s).json({error})`. -/
inductive Resp where
  | ok (message : String)
  | err (status : Nat) (error : String)
deriving DecidableEq, Repr

/-- Whether a response is an error response. -/
def Resp.isErr : Resp → Bool
  | .ok _ => false
  | .err _ _ => true

/-- `Group.findById` over the stored groups. -/
def St.findGroup (st : St) (gid : Nat) : Option Group :=
  st.groups.find? (fun g => g.id == gid)

/-- `GroupMembership.findOne({groupId, userId})` (no status filter). -/
def St.findMembership (st : St) (gid uid : Nat) : Option Membership :=
  st.memberships.find? (fun m => m.groupId == gid && m.userId == uid)

/-- Persisting a mutated membership document: every stored record with the
same (groupId, userId) key — unique by the compound index of
groupMembership.js line 801 — is replaced by the new version. -/
def St.saveMembership (st : St) (m : Membership) : St :=
  { st with memberships := st.memberships.map (fun x =>
      if x.groupId == m.groupId && x.userId == m.userId then m else x) }

/-- Persisting a mutated group document (same id replaced). -/
def St.saveGroup (st : St) (g : Group) : St :=
  { st with groups := st.groups.map (fun x => if x.id == g.id then g else x) }

/-- Number of stored membership records of a group whose status is active
(`GroupMembership.countDocuments({groupId, status: 'active'})`). -/
def St.activeMemberCount (st : St) (gid : Nat) : Nat :=
  (st.memberships.filter (fun m => m.groupId == gid && m.status == MStatus.active)).length

/-- `createGroup` (groupController.js lines 54-96), for a fresh group id:
verifies the community exists, stores the group (memberCount defaulting to 1)
and an active admin membership for the creator. -/
def createGroup (st : St) (creator gid communityId now : Nat) (t : GType) : Resp × St :=
  if st.communities.contains communityId then
    let g : Group := { id := gid, communityId := communityId, createdBy := creator,
                       type := t, memberCount := 1 }
    let m : Membership := { groupId := gid, userId := creator, status := .active,
                            role := .admin, joinedAt := now, approvedAt := some now,
                            approvedBy := some creator, bannedAt := none,
                            bannedBy := none, banReason := none, leftAt := none,
                            requestMessage := none }
    (Resp.ok "created",
     { st with groups := st.groups ++ [g], memberships := st.memberships ++ [m] })
  else
    (Resp.err 404 "Community not found", st)

/-- The insert path of `joinGroup` (groupController.js lines 313-335): build a
new membership (active and self-approved for Public groups, else pending) and
save it.  The save hits the unique (groupId, userId) index (groupMembership.js
line 801), so if any record with that key already exists the insert throws a
duplicate-key error, which the surrounding catch turns into a 400 response
with no state change; the member-count increment sits after the save and is
then never reached. -/
def joinInsert (st : St) (group : Group) (uid now : Nat)
    (requestMessage : Option String) : Resp × St :=
  let status := if group.type == GType.Public then MStatus.active else MStatus.pending
  if st.memberships.any (fun m => m.groupId == group.id && m.userId == uid) then
    (Resp.err 400 "duplicate key error", st)
  else
    let m : Membership := { groupId := group.id, userId := uid, status := status,
                            role := .member, joinedAt := now,
                            approvedAt := if group.type == GType.Public then some now else none,
                            approvedBy := if group.type == GType.Public then some uid else none,
                            bannedAt := none, bannedBy := none, banReason := none,
                            leftAt := none, requestMessage := requestMessage }
    let st1 := { st with memberships := st.memberships ++ [m] }
    let st2 := if status == MStatus.active then
                 st1.saveGroup { group with memberCount := group.memberCount + 1 }
               else st1
    (Resp.ok (if status == MStatus.active then "Successfully joined group"
              else "Join request submitted"), st2)

/-- `joinGroup` (groupController.js lines 270-345). A `left` record is
reactivated in place; an `active`/`pending` record is rejected; a `banned`
record falls through the if-chain to the insert path. -/
def joinGroup (st : St) (uid gid now : Nat) (requestMessage : Option String) : Resp × St :=
  match st.findGroup gid with
  | none => (Resp.err 404 "Group not found", st)
  | some group =>
    match st.findMembership gid uid with
    | some existing =>
      if existing.status == MStatus.active || existing.status == MStatus.pending then
        (Resp.err 400 (if existing.status == MStatus.active then "Already a member"
                       else "Join request already pending"), st)
      else if existing.status == MStatus.left then
        let isPub := group.type == GType.Public
        let m := { existing with
                   status := if isPub then MStatus.active else MStatus.pending,
                   requestMessage := requestMessage, joinedAt := now, leftAt := none,
                   approvedAt := if isPub then some now else none,
                   approvedBy := if isPub then some uid else none }
        let st1 := st.saveMembership m
        let st2 := if m.status == MStatus.active then
                     st1.saveGroup { group with memberCount := group.memberCount + 1 }
                   else st1
        (Resp.ok (if m.status == MStatus.active then "Successfully re-joined group"
                  else "Join request submitted"), st2)
      else
        joinInsert st group uid now requestMessage
    | none => joinInsert st group uid now requestMessage

/-- `leaveGroup` (groupController.js lines 348-380).  The source first awaits
`membership.leave()` — which sets `status = 'left'` and `leftAt` before saving
(groupMembership.js lines 826-830) — and only afterwards tests
`membership.status === 'active'` to decide whether to decrement
`group.memberCount`; that test therefore runs on the already-updated record. -/
def leaveGroup (st : St) (uid gid now : Nat) : Resp × St :=
  match st.findGroup gid with
  | none => (Resp.err 404 "Group not found", st)
  | some group =>
    match st.memberships.find? (fun m => m.groupId == gid && m.userId == uid &&
        (m.status == MStatus.active || m.status == MStatus.pending)) with
    | none => (Resp.err 400 "Not a member of this group", st)
    | some membership =>
      if group.createdBy == uid then
        (Resp.err 400 "Group creator cannot leave the group", st)
      else
        let m := { membership with status := MStatus.left, leftAt := some now }
        let st1 := st.saveMembership m
        let st2 := if m.status == MStatus.active then
                     st1.saveGroup { group with memberCount := group.memberCount - 1 }
                   else st1
        (Resp.ok "Successfully left the group", st2)

/-- `approveJoinRequest` (groupController.js lines 446-484): requires an
active admin/moderator membership for the approver, a pending record for the
target, then `membership.approve(...)` (groupMembership.js lines 809-814)
followed by `memberCount += 1`. -/
def approveJoinRequest (st : St) (actor gid target now : Nat) : Resp × St :=
  match st.findGroup gid with
  | none => (Resp.err 404 "Group not found", st)
  | some group =>
    match st.memberships.find? (fun m => m.groupId == gid && m.userId == actor &&
        m.status == MStatus.active &&
        (m.role == MRole.admin || m.role == MRole.moderator)) with
    | none => (Resp.err 403 "Access denied. Admin or moderator privileges required.", st)
    | some _ =>
      match st.memberships.find? (fun m => m.groupId == gid && m.userId == target &&
          m.status == MStatus.pending) with
      | none => (Resp.err 404 "Join request not found", st)
      | some membership =>
        let m := { membership with
                   status := MStatus.active, approvedAt := some now,
                   approvedBy := some actor }
        let st1 := st.saveMembership m
        let st2 := st1.saveGroup { group with memberCount := group.memberCount + 1 }
        (Resp.ok "Join request approved", st2)

/-- `rejectJoinRequest` (groupController.js lines 487-521): same permission
check, then the pending record is deleted (`findByIdAndDelete`). -/
def rejectJoinRequest (st : St) (actor gid target : Nat) : Resp × St :=
  match st.findGroup gid with
  | none => (Resp.err 404 "Group not found", st)
  | some _ =>
    match st.memberships.find? (fun m => m.groupId == gid && m.userId == actor &&
        m.status == MStatus.active &&
        (m.role == MRole.admin || m.role == MRole.moderator)) with
    | none => (Resp.err 403 "Access denied. Admin or moderator privileges required.", st)
    | some _ =>
      match st.memberships.find? (fun m => m.groupId == gid && m.userId == target &&
          m.status == MStatus.pending) with
      | none => (Resp.err 404 "Join request not found", st)
      | some membership =>
        ((Resp.ok "Join request rejected"),
         { st with memberships := st.memberships.eraseP (fun m => m == membership) })

/-- `banUserFromGroup` (moderationController.js lines 107-152): global
`ban_users` permission or active admin/moderator membership, an active
membership for the target, the creator guard, then `membership.ban(...)`
(groupMembership.js lines 817-823) and `memberCount = max(0, memberCount-1)`
(truncated subtraction on `Nat`).  If the group id resolves to no group the
`group.createdBy` access throws and the catch returns a 400 response. -/
def banUserFromGroup (st : St) (actor gid target now : Nat)
    (reason : Option String) : Resp × St :=
  if !(userHasPermission st.roles actor .ban_users none none) &&
     (st.memberships.find? (fun m => m.groupId == gid &&
       m.userId == actor && m.status == MStatus.active &&
       (m.role == MRole.admin || m.role == MRole.moderator))).isNone then
    (Resp.err 403 "Access denied. Moderation privileges required.", st)
  else
    match st.memberships.find? (fun m => m.groupId == gid && m.userId == target &&
        m.status == MStatus.active) with
    | none => (Resp.err 404 "User is not a member of this group", st)
    | some userMembership =>
      match st.findGroup gid with
      | none => (Resp.err 400 "Cannot read properties of null", st)
      | some group =>
        if group.createdBy == target then
          (Resp.err 400 "Cannot ban group creator", st)
        else
          let m := { userMembership with
                     status := MStatus.banned, bannedAt := some now,
                     bannedBy := some actor, banReason := reason }
          let st1 := st.saveMembership m
          let st2 := st1.saveGroup { group with memberCount := group.memberCount - 1 }
          (Resp.ok "User banned successfully", st2)

/-- `unbanUserFromGroup` (moderationController.js lines 155-199): same
permission check, a banned record for the target, status restored to active
with the ban fields cleared, then `memberCount += 1`.  The membership is
saved before the group is looked up, so a missing group leaves the
already-saved membership behind. -/
def unbanUserFromGroup (st : St) (actor gid target : Nat) : Resp × St :=
  if !(userHasPermission st.roles actor .ban_users none none) &&
     (st.memberships.find? (fun m => m.groupId == gid &&
       m.userId == actor && m.status == MStatus.active &&
       (m.role == MRole.admin || m.role == MRole.moderator))).isNone then
    (Resp.err 403 "Access denied. Moderation privileges required.", st)
  else
    match st.memberships.find? (fun m => m.groupId == gid && m.userId == target &&
        m.status == MStatus.banned) with
    | none => (Resp.err 404 "User is not banned from this group", st)
    | some userMembership =>
      let m := { userMembership with
                 status := MStatus.active, bannedAt := none,
                 bannedBy := none, banReason := none }
      let st1 := st.saveMembership m
      match st1.findGroup gid with
      | none => (Resp.err 400 "Cannot read properties of null", st1)
      | some group =>
        let st2 := st1.saveGroup { group with memberCount := group.memberCount + 1 }
        (Resp.ok "User unbanned successfully", st2)

/-- `canUserPostInGroup` (roleAggregateService.js lines 156-198).  The whole
body sits in a try/catch whose catch returns false; `ioError` models a data
load failing (any thrown error), which the catch maps to `false`.  The
platform-admin lookup here has no scope constraint, the membership must be
active, and otherwise a moderator/expert role scoped to the group's parent
community suffices (verificationStatus is not consulted). -/
def canUserPostInGroup (st : St) (ioError : Bool) (uid gid : Nat) : Bool :=
  if ioError then false
  else
    let platformAdminRole := st.roles.find? (fun r => r.userId == uid &&
      r.role == Role.admin && r.isActive)
    if platformAdminRole.isSome then true
    else
      let membership := st.memberships.find? (fun m => m.userId == uid &&
        m.groupId == gid && m.status == MStatus.active)
      if membership.isSome then true
      else
        match st.findGroup gid with
        | none => false
        | some group =>
          (st.roles.find? (fun r => r.userId == uid &&
            (r.role == Role.moderator || r.role == Role.expert) &&
            r.communityId == some group.communityId && r.isActive)).isSome

/-! Concrete states used by counterexamples and witnesses. -/

/-- A platform-wide admin role record with the permissions the pre-save hook
derives for role admin. -/
def adminRec : RoleRecord :=
  { userId := 0, role := .admin, communityId := none, groupId := none,
    permissions := defaultPermissions .admin, isActive := true,
    verificationStatus := .pending, verifiedAt := none, verifiedBy := none }

/-- A community-expert role record for community 1, still pending
verification, with the permissions the pre-save hook derives for role
expert. -/
def expertRec : RoleRecord :=
  { userId := 1, role := .expert, communityId := some 1, groupId := none,
    permissions := defaultPermissions .expert, isActive := true,
    verificationStatus := .pending, verifiedAt := none, verifiedBy := none }

/-- A community-moderator role record scoped to community 2, with the
derived moderator permissions. -/
def modRec : RoleRecord :=
  { userId := 2, role := .moderator, communityId := some 2, groupId := none,
    permissions := defaultPermissions .moderator, isActive := true,
    verificationStatus := .pending, verifiedAt := none, verifiedBy := none }

/-- Empty store with one community (id 0). -/
def st0 : St := { communities := [0], groups := [], memberships := [], roles := [] }

/-- User 0 creates public group 1 under community 0 at time 0. -/
def stCreated : St := (createGroup st0 0 1 0 0 GType.Public).2

/-- User 1 joins the public group at time 1 (auto-approved, memberCount 2). -/
def stJoined : St := (joinGroup stCreated 1 1 1 none).2

/-- The leaveGroup call of user 1 at time 2 on that state. -/
def leaveRun : Resp × St := leaveGroup stJoined 1 1 2

/-- The stored group document of `stJoined`. -/
def groupJoined : Group :=
  { id := 1, communityId := 0, createdBy := 0, type := .Public, memberCount := 2 }

/-- `stJoined` with a platform-admin role record for user 0, so that user 0
holds the global ban_users permission. -/
def stWithAdmin : St := { stJoined with roles := [adminRec] }

/-- A state in which user 1 is banned from group 1: group memberCount 1,
creator active, user 1 banned. -/
def stBanned : St := (banUserFromGroup stWithAdmin 0 1 1 5 (some "spam")).2

/-- User 0 creates private group 2 under community 0 at time 0, user 1
requests to join at time 1 (pending). -/
def stRequested : St :=
  (joinGroup (createGroup st0 0 2 0 0 GType.Private).2 1 2 1 none).2

/-- First approval of user 1's request by the creator at time 2. -/
def approveRun1 : Resp × St := approveJoinRequest stRequested 0 2 1 2

/-- Second approval attempt at time 3, after the record is already active. -/
def approveRun2 : Resp × St := approveJoinRequest approveRun1.2 0 2 1 3

/-! Helper lemmas about `List.find?` over a key-based replacement, shared by
the proofs about saved documents. -/

/-- After replacing every key-matching element of a list by `m`, a search
whose predicate fails on `m` and implies the key finds nothing. -/
theorem find?_replace_none {α : Type} (l : List α) (key q : α → Bool) (m : α)
    (hm : q m = false) (himp : ∀ x, q x = true → key x = true) :
    (l.map (fun x => if key x then m else x)).find? q = none := by
  apply List.find?_eq_none.mpr
  intro y hy
  rcases List.mem_map.mp hy with ⟨x, hx, rfl⟩
  by_cases hk : key x = true
  · simp [hk, hm]
  · have hq : q x = false := by
      by_contra h
      simp only [Bool.not_eq_false] at h
      exact hk (himp x h)
    simp [hk, hq]

/-- After replacing every key-matching element by `m`, a search whose
predicate holds of `m` and implies the key returns `m`, provided some
element matched the key. -/
theorem find?_replace_some {α : Type} (l : List α) (key q : α → Bool) (m : α)
    (hqm : q m = true) (himp : ∀ x, q x = true → key x = true)
    (hex : ∃ x ∈ l, key x = true) :
    (l.map (fun x => if key x then m else x)).find? q = some m := by
  induction l with
  | nil => rcases hex with ⟨x, hx, _⟩; simp at hx
  | cons h t ih =>
    by_cases hk : key h = true
    · simp only [List.map_cons, hk, if_true]
      exact List.find?_cons_of_pos _ hqm
    · simp only [Bool.not_eq_true] at hk
      simp only [List.map_cons, hk, Bool.false_eq_true, if_false]
      have hqh : q h = false := by
        by_contra hq
        simp only [Bool.not_eq_false] at hq
        have := himp h hq
        rw [this] at hk
        simp at hk
      rw [List.find?_cons_of_neg _ (by simp [hqh])]
      apply ih
      rcases hex with ⟨x, hx, hkey⟩
      rcases List.mem_cons.mp hx with rfl | hxt
      · rw [hkey] at hk; simp at hk
      · exact ⟨x, hxt, hkey⟩

/-- A list containing an element satisfying the predicate has a `find?` hit
that satisfies the predicate. -/
theorem find?_exists_of_mem {α : Type} (l : List α) (p : α → Bool) (a : α)
    (ha : a ∈ l) (hpa : p a = true) :
    ∃ b, l.find? p = some b ∧ p b = true := by
  cases hf : l.find? p with
  | none => exact absurd hpa (List.find?_eq_none.mp hf a ha)
  | some b => exact ⟨b, rfl, List.find?_some hf⟩

/-- C1, counterexample: a user whose only record is an active platform-admin
role (with the pre-save-derived admin permission set) is denied
mark_best_answer — the admin permission list of the pre-save hook does not
contain that token, so `userHasPermission` is not unconditionally true for
platform admins, contrary to the claim. -/
theorem C1_admin_denied_mark_best_answer :
    userHasPermission [adminRec] 0 Perm.mark_best_answer none none = false := by
  decide

/-- C2, counterexample: for a user whose only role record is an active expert
role with verificationStatus pending, `userHasPermission` already returns
true for mark_best_answer (the resolver never reads verificationStatus),
contradicting the claimed false. -/
theorem C2_pending_expert_already_granted :
    userHasPermission [expertRec] 1 Perm.mark_best_answer (some 1) none = true := by
  decide

/-- C6, counterexample: a moderator record scoped to community 2 — unrelated
to the queried community 1 and to group 5 — satisfies a group-scoped
permission query, because a group-scoped query only constrains the record's
groupId (any record with null groupId matches, whatever its communityId). -/
theorem C6_unrelated_community_record_matches :
    userHasPermission [modRec] 2 Perm.moderate_posts (some 1) (some 5) = true := by
  decide

/-- C3: the memberCount invariant is violated by the code.  Starting from
group creation (memberCount 1, creator active), user 1 joins the public
group (memberCount 2, two active records) and then leaves: the leave
succeeds and marks the record left, but `leaveGroup` tests
`membership.status === 'active'` only after `membership.leave()` has already
set the status to left, so the counter is never decremented — the stored
memberCount stays 2 while only 1 record is active. -/
theorem C3_memberCount_invariant_violated :
    leaveRun.1 = Resp.ok "Successfully left the group" ∧
    leaveRun.2.activeMemberCount 1 = 1 ∧
    (leaveRun.2.findGroup 1).map (fun g => g.memberCount) = some 2 := by
  decide

/-- C4: `leaveGroup` on an active non-creator member sets the record's
status to left and leftAt to now as claimed, but does not decrement
group.memberCount (it stays 2): the decrement is guarded by a status check
that runs after `membership.leave()` has already overwritten the status, so
it can never fire. -/
theorem C4_leave_does_not_decrement :
    (stJoined.findMembership 1 1).map (fun m => m.status) = some MStatus.active ∧
    (stJoined.findGroup 1).map (fun g => g.memberCount) = some 2 ∧
    leaveRun.1 = Resp.ok "Successfully left the group" ∧
    (leaveRun.2.findMembership 1 1).map (fun m => m.status) = some MStatus.left ∧
    (leaveRun.2.findMembership 1 1).map (fun m => m.leftAt) = some (some 2) ∧
    (leaveRun.2.findGroup 1).map (fun g => g.memberCount) = some 2 := by
  decide

/-- C7, counterexample: the second `approveJoinRequest` on an
already-approved record answers 404 "Join request not found" — byte-for-byte
the same response the endpoint gives for a user who never requested to join
at all — rather than a distinct InvalidTransition error. -/
theorem C7_second_approve_answers_not_found :
    approveRun2.1 = Resp.err 404 "Join request not found" ∧
    approveRun2.1 = (approveJoinRequest approveRun1.2 0 2 99 3).1 := by
  decide

/-- C1, amended: for every user holding an active platform-admin RoleRecord
(role admin, both scope ids null) whose admin records carry the
pre-save-derived admin permission set, `userHasPermission` returns true for
every token of that derived set — i.e. every permission token except
mark_best_answer — regardless of the queried scope. -/
theorem C1_platform_admin_grants_derived (db : List RoleRecord) (u : Nat)
    (p : Perm) (c g : Option Nat) (r : RoleRecord) (hmem : r ∈ db)
    (hu : r.userId = u) (hrole : r.role = Role.admin) (hact : r.isActive = true)
    (hc : r.communityId = none) (hg : r.groupId = none)
    (hderiv : ∀ s ∈ db, s.role = Role.admin →
      s.permissions = defaultPermissions Role.admin)
    (hp : p ∈ defaultPermissions Role.admin) :
    userHasPermission db u p c g = true := by
  have hfind := find?_exists_of_mem db
    (fun s => s.userId == u && s.role == Role.admin && s.isActive &&
      s.communityId == none && s.groupId == none) r hmem
    (by simp [hu, hrole, hact, hc, hg])
  rcases hfind with ⟨b, hb, hbp⟩
  have hbmem : b ∈ db := List.mem_of_find?_eq_some hb
  simp only [Bool.and_eq_true, beq_iff_eq] at hbp
  have hbrole : b.role = Role.admin := hbp.1.1.1.2
  have hbact : b.isActive = true := hbp.1.1.2
  have hbperm := hderiv b hbmem hbrole
  have hshort : adminShortcut db u p = true := by
    unfold adminShortcut findAdminRole
    rw [hb]
    simp only [RoleRecord.hasPermission, hbact, hbperm, Bool.true_and]
    exact List.elem_iff.mpr hp
  unfold userHasPermission
  rw [hshort]
  simp

/-- C1 witness: the platform admin of `adminRec` is granted ban_users at an
arbitrary community/group scope. -/
theorem C1_platform_admin_witness :
    userHasPermission [adminRec] 0 Perm.ban_users (some 7) (some 9) = true :=
  C1_platform_admin_grants_derived [adminRec] 0 Perm.ban_users (some 7) (some 9)
    adminRec (by simp) rfl rfl rfl rfl rfl
    (by intro s hs _; simp at hs; rw [hs]; rfl) (by decide)

/-- C2, amended: for a user whose only role record is an active expert role
with verificationStatus pending and the derived expert permission set,
`userHasPermission` returns true for mark_best_answer already — the resolver
never consults verificationStatus — and still returns true after
verifyExpert marks the record verified. -/
theorem C2_resolver_ignores_verification (r : RoleRecord) (vb now : Nat)
    (hrole : r.role = Role.expert) (hact : r.isActive = true)
    (hv : r.verificationStatus = VerifStatus.pending)
    (hperm : r.permissions = defaultPermissions Role.expert) :
    userHasPermission [r] r.userId Perm.mark_best_answer r.communityId none = true ∧
    userHasPermission [r.verify vb now] r.userId Perm.mark_best_answer
      r.communityId none = true := by
  constructor
  · unfold userHasPermission adminShortcut findAdminRole
    cases hcid : r.communityId with
    | none =>
      simp [hrole, hact, hperm, hcid, scopeFilter, RoleRecord.hasPermission,
        defaultPermissions]
    | some cId =>
      simp [hrole, hact, hperm, hcid, scopeFilter, RoleRecord.hasPermission,
        defaultPermissions]
  · unfold userHasPermission adminShortcut findAdminRole RoleRecord.verify
    cases hcid : r.communityId with
    | none =>
      simp [hrole, hact, hperm, hcid, scopeFilter, RoleRecord.hasPermission,
        defaultPermissions]
    | some cId =>
      simp [hrole, hact, hperm, hcid, scopeFilter, RoleRecord.hasPermission,
        defaultPermissions]

/-- C2 witness: the pending expert of `expertRec` gets mark_best_answer both
before and after verification. -/
theorem C2_resolver_ignores_verification_witness :
    userHasPermission [expertRec] 1 Perm.mark_best_answer (some 1) none = true ∧
    userHasPermission [expertRec.verify 0 3] 1 Perm.mark_best_answer
      (some 1) none = true :=
  C2_resolver_ignores_verification expertRec 0 3 rfl rfl rfl rfl

/-- C5: whenever the target user is the group's creator, `leaveGroup` and
`banUserFromGroup` both answer with an error response and leave the entire
state — membership records, statuses and group.memberCount — unchanged, so
the creator's membership can never reach left or banned through them. -/
theorem C5_creator_immune (st : St) (gid uid actor now : Nat)
    (reason : Option String) (group : Group)
    (hG : st.findGroup gid = some group) (hcr : group.createdBy = uid) :
    ((leaveGroup st uid gid now).1.isErr = true ∧
     (leaveGroup st uid gid now).2 = st) ∧
    ((banUserFromGroup st actor gid uid now reason).1.isErr = true ∧
     (banUserFromGroup st actor gid uid now reason).2 = st) := by
  constructor
  · unfold leaveGroup
    rw [hG]
    cases hf : st.memberships.find? (fun m => m.groupId == gid && m.userId == uid &&
        (m.status == MStatus.active || m.status == MStatus.pending)) with
    | none => exact ⟨rfl, rfl⟩
    | some membership => simp [hcr, Resp.isErr]
  · have hbeq : (group.createdBy == uid) = true := by simp [hcr]
    unfold banUserFromGroup
    by_cases hauth : (!(userHasPermission st.roles actor Perm.ban_users none none) &&
        (st.memberships.find? (fun m => m.groupId == gid && m.userId == actor &&
          m.status == MStatus.active &&
          (m.role == MRole.admin || m.role == MRole.moderator))).isNone) = true
    · simp [hauth, Resp.isErr]
    · simp only [Bool.not_eq_true] at hauth
      simp only [hauth, Bool.false_eq_true, if_false]
      cases hf : st.memberships.find? (fun m => m.groupId == gid &&
          m.userId == uid && m.status == MStatus.active) with
      | none => exact ⟨rfl, rfl⟩
      | some userMembership =>
        rw [hG]
        simp [hbeq, Resp.isErr]

/-- C5 witness: in `stJoined` the creator (user 0) cannot leave group 1, and
an attempt to ban the creator errors; the state is untouched both times. -/
theorem C5_creator_immune_witness :
    (stJoined.findGroup 1 = some groupJoined ∧ groupJoined.createdBy = 0) ∧
    (((leaveGroup stJoined 0 1 9).1.isErr = true ∧
      (leaveGroup stJoined 0 1 9).2 = stJoined) ∧
     ((banUserFromGroup stJoined 0 1 0 9 none).1.isErr = true ∧
      (banUserFromGroup stJoined 0 1 0 9 none).2 = stJoined)) :=
  ⟨⟨by decide, by decide⟩,
   C5_creator_immune stJoined 1 0 0 9 none groupJoined (by decide) (by decide)⟩

/-- C9: `canUserPostInGroup` is deny-by-default and total: when the data load
fails (the catch-all), or when the group does not exist, the user has no
active membership record for it, and the user holds no active admin role,
the function returns false (it returns a boolean on every input instead of
propagating an exception). -/
theorem C9_can_post_deny_by_default (st : St) (ioError : Bool) (u g : Nat)
    (h : ioError = true ∨
      (st.findGroup g = none ∧
       (∀ m ∈ st.memberships,
          ¬(m.userId = u ∧ m.groupId = g ∧ m.status = MStatus.active)) ∧
       (∀ r ∈ st.roles,
          ¬(r.userId = u ∧ r.role = Role.admin ∧ r.isActive = true)))) :
    canUserPostInGroup st ioError u g = false := by
  rcases h with h | ⟨hg, hm, hr⟩
  · simp [canUserPostInGroup, h]
  · cases ioError with
    | true => rfl
    | false =>
      have h1 : st.roles.find? (fun r => r.userId == u &&
          r.role == Role.admin && r.isActive) = none := by
        apply List.find?_eq_none.mpr
        intro r hrm hpr
        simp only [Bool.and_eq_true, beq_iff_eq] at hpr
        exact hr r hrm ⟨hpr.1.1, hpr.1.2, hpr.2⟩
      have h2 : st.memberships.find? (fun m => m.userId == u &&
          m.groupId == g && m.status == MStatus.active) = none := by
        apply List.find?_eq_none.mpr
        intro m hmm hpm
        simp only [Bool.and_eq_true, beq_iff_eq] at hpm
        exact hm m hmm ⟨hpm.1.1, hpm.1.2, hpm.2⟩
      simp [canUserPostInGroup, h1, h2, hg]

/-- C9 witness: in the empty store, an unknown user cannot post in an
unknown group, and the load-failure case also denies. -/
theorem C9_can_post_deny_by_default_witness :
    canUserPostInGroup st0 false 3 99 = false ∧
    canUserPostInGroup st0 true 3 99 = false :=
  ⟨C9_can_post_deny_by_default st0 false 3 99
     (Or.inr ⟨by decide, by intro m hm; simp [st0] at hm, by intro r hr; simp [st0] at hr⟩),
   C9_can_post_deny_by_default st0 true 3 99 (Or.inl rfl)⟩

/-- C10: a user whose membership record for the group is banned can never
re-enter via `joinGroup`: the banned record falls through the status
if-chain to the insert path, the insert collides with the unique
(groupId, userId) index, and the call returns an error with the whole state
— banned record and memberCount included — unchanged. -/
theorem C10_banned_member_cannot_rejoin (st : St) (u gid now : Nat)
    (msg : Option String) (group : Group) (m : Membership)
    (hG : st.findGroup gid = some group)
    (hM : st.findMembership gid u = some m) (hban : m.status = MStatus.banned) :
    (joinGroup st u gid now msg).1.isErr = true ∧
    (joinGroup st u gid now msg).2 = st := by
  have hM' : st.memberships.find? (fun x => x.groupId == gid && x.userId == u)
      = some m := hM
  have hmem : m ∈ st.memberships := List.mem_of_find?_eq_some hM'
  have hkey := List.find?_some hM'
  simp only [Bool.and_eq_true, beq_iff_eq] at hkey
  have hgid : group.id = gid := by
    have := List.find?_some hG
    simpa using this
  have hdup : st.memberships.any
      (fun x => x.groupId == group.id && x.userId == u) = true :=
    List.any_eq_true.mpr ⟨m, hmem, by simp [hkey.1, hkey.2, hgid]⟩
  unfold joinGroup
  rw [hG, hM]
  simp only [hban]
  unfold joinInsert
  simp [hdup, Resp.isErr]

/-- C10 witness: in `stBanned` (user 1 banned from group 1), user 1's join
attempt errors and changes nothing. -/
theorem C10_banned_member_cannot_rejoin_witness :
    (joinGroup stBanned 1 1 6 none).1.isErr = true ∧
    (joinGroup stBanned 1 1 6 none).2 = stBanned :=
  C10_banned_member_cannot_rejoin stBanned 1 1 6 none
    { id := 1, communityId := 0, createdBy := 0, type := .Public, memberCount := 1 }
    { groupId := 1, userId := 1, status := .banned, role := .member, joinedAt := 1,
      approvedAt := some 1, approvedBy := some 1, bannedAt := some 5,
      bannedBy := some 0, banReason := some "spam", leftAt := none,
      requestMessage := none }
    (by decide) (by decide) (by decide)

/-- The scoped phase of `userHasPermission` in propositional form: some
stored record of the user is active, passes the scope filter and lists the
permission. -/
theorem filter_any_characterization (db : List RoleRecord) (u : Nat) (p : Perm)
    (sf : RoleRecord → Bool) :
    ((db.filter (fun r => r.userId == u && r.isActive && sf r)).any
      (fun r => r.hasPermission p) = true) ↔
    ∃ r ∈ db, r.userId = u ∧ r.isActive = true ∧ sf r = true ∧
      r.hasPermission p = true := by
  rw [List.any_eq_true]
  constructor
  · rintro ⟨r, hr, hpr⟩
    rw [List.mem_filter] at hr
    obtain ⟨hrm, hconj⟩ := hr
    simp only [Bool.and_eq_true, beq_iff_eq] at hconj
    exact ⟨r, hrm, hconj.1.1, hconj.1.2, hconj.2, hpr⟩
  · rintro ⟨r, hrm, hru, hract, hsf, hperm⟩
    exact ⟨r, List.mem_filter.mpr ⟨hrm, by simp [hru, hract, hsf]⟩, hperm⟩

/-- C6, amended: apart from the platform-admin shortcut, a group-scoped
query matches exactly the user's active records whose groupId is that group
or null — regardless of the record's communityId, so records scoped to any
community, related or not, match through their null groupId, and the
communityId argument is ignored; a community-scoped query matches exactly
the active records whose communityId is that community or null, regardless
of their groupId. -/
theorem C6_scope_matching_characterized (db : List RoleRecord) (u : Nat) (p : Perm) :
    (∀ c : Option Nat, ∀ g : Nat,
      (userHasPermission db u p c (some g) = true ↔
        adminShortcut db u p = true ∨
        ∃ r ∈ db, r.userId = u ∧ r.isActive = true ∧
          (r.groupId = some g ∨ r.groupId = none) ∧ r.hasPermission p = true)) ∧
    (∀ c : Nat,
      (userHasPermission db u p (some c) none = true ↔
        adminShortcut db u p = true ∨
        ∃ r ∈ db, r.userId = u ∧ r.isActive = true ∧
          (r.communityId = some c ∨ r.communityId = none) ∧
          r.hasPermission p = true)) := by
  constructor
  · intro c g
    unfold userHasPermission
    by_cases ha : adminShortcut db u p = true
    · simp [ha]
    · simp only [Bool.not_eq_true] at ha
      simp only [ha, Bool.false_eq_true, if_false]
      rw [filter_any_characterization]
      simp [scopeFilter]
  · intro c
    unfold userHasPermission
    by_cases ha : adminShortcut db u p = true
    · simp [ha]
    · simp only [Bool.not_eq_true] at ha
      simp only [ha, Bool.false_eq_true, if_false]
      rw [filter_any_characterization]
      simp [scopeFilter]

/-- Saving a group whose id is the searched one makes `findGroup` return it,
provided the search previously succeeded. -/
theorem saveGroup_findGroup (st : St) (gid : Nat) (group newG : Group)
    (hG : st.findGroup gid = some group) (hid : newG.id = gid) :
    (st.saveGroup newG).findGroup gid = some newG := by
  have hG' : st.groups.find? (fun x => x.id == gid) = some group := hG
  have hGmem : group ∈ st.groups := List.mem_of_find?_eq_some hG'
  have hgid : (group.id == gid) = true := by simpa using List.find?_some hG'
  unfold St.findGroup St.saveGroup
  simp only [hid]
  exact find?_replace_some st.groups (fun x => x.id == gid) (fun x => x.id == gid)
    newG (by simp [hid]) (fun x h => h) ⟨group, hGmem, hgid⟩

/-- After saving membership `m`, a search whose predicate fails on `m` and
implies `m`'s key finds nothing. -/
theorem saveMembership_find_none (st : St) (m : Membership) (q : Membership → Bool)
    (hqm : q m = false)
    (himp : ∀ x, q x = true →
      (x.groupId == m.groupId && x.userId == m.userId) = true) :
    (st.saveMembership m).memberships.find? q = none := by
  unfold St.saveMembership
  exact find?_replace_none st.memberships
    (fun x => x.groupId == m.groupId && x.userId == m.userId) q m hqm himp

/-- After saving membership `m`, a search whose predicate holds of `m` and
implies `m`'s key returns `m`, provided some stored record carried that key. -/
theorem saveMembership_find_some (st : St) (m : Membership) (q : Membership → Bool)
    (hqm : q m = true)
    (himp : ∀ x, q x = true →
      (x.groupId == m.groupId && x.userId == m.userId) = true)
    (hex : ∃ x ∈ st.memberships,
      (x.groupId == m.groupId && x.userId == m.userId) = true) :
    (st.saveMembership m).memberships.find? q = some m := by
  unfold St.saveMembership
  exact find?_replace_some st.memberships
    (fun x => x.groupId == m.groupId && x.userId == m.userId) q m hqm himp hex

/-- A stored record with a different key survives a membership save
untouched, so a search for it still succeeds. -/
theorem saveMembership_find_isSome (st : St) (m : Membership) (q : Membership → Bool)
    (a : Membership) (ha : a ∈ st.memberships) (hqa : q a = true)
    (hkeya : (a.groupId == m.groupId && a.userId == m.userId) = false) :
    ∃ b, (st.saveMembership m).memberships.find? q = some b ∧ q b = true := by
  unfold St.saveMembership
  exact find?_exists_of_mem _ q a
    (List.mem_map.mpr ⟨a, ha, by simp [hkeya]⟩) hqa

/-- C7, amended: the first `approveJoinRequest` on a pending record (by an
authorized approver distinct from the target) succeeds and increments
memberCount by 1; the second call finds no pending record any more and
answers the not-found error 404 "Join request not found" — not a distinct
InvalidTransition error — leaving the state unchanged, so memberCount is
incremented exactly once. -/
theorem C7_second_approve_errors_without_recount (st : St)
    (gid approver target now1 now2 : Nat) (group : Group) (ma mt : Membership)
    (hG : st.findGroup gid = some group)
    (hA : st.memberships.find? (fun m => m.groupId == gid &&
        m.userId == approver && m.status == MStatus.active &&
        (m.role == MRole.admin || m.role == MRole.moderator)) = some ma)
    (hT : st.memberships.find? (fun m => m.groupId == gid &&
        m.userId == target && m.status == MStatus.pending) = some mt)
    (hne : approver ≠ target) :
    (approveJoinRequest st approver gid target now1).1
        = Resp.ok "Join request approved" ∧
    (((approveJoinRequest st approver gid target now1).2).findGroup gid).map
        (fun x => x.memberCount) = some (group.memberCount + 1) ∧
    (approveJoinRequest ((approveJoinRequest st approver gid target now1).2)
        approver gid target now2).1 = Resp.err 404 "Join request not found" ∧
    (approveJoinRequest ((approveJoinRequest st approver gid target now1).2)
        approver gid target now2).2
      = (approveJoinRequest st approver gid target now1).2 := by
  have hAmem : ma ∈ st.memberships := List.mem_of_find?_eq_some hA
  have hAq : (ma.groupId == gid && ma.userId == approver &&
      ma.status == MStatus.active &&
      (ma.role == MRole.admin || ma.role == MRole.moderator)) = true := by
    simpa using List.find?_some hA
  have hTq : (mt.groupId == gid && mt.userId == target &&
      mt.status == MStatus.pending) = true := by
    simpa using List.find?_some hT
  have hTfacts : mt.groupId = gid ∧ mt.userId = target := by
    simp only [Bool.and_eq_true, beq_iff_eq] at hTq
    exact ⟨hTq.1.1, hTq.1.2⟩
  have hAuser : ma.userId = approver := by
    simp only [Bool.and_eq_true, beq_iff_eq] at hAq
    exact hAq.1.1.2
  have hstep1 : approveJoinRequest st approver gid target now1 =
      (Resp.ok "Join request approved",
       (st.saveMembership { mt with
          status := MStatus.active, approvedAt := some now1,
          approvedBy := some approver }).saveGroup
         { group with memberCount := group.memberCount + 1 }) := by
    unfold approveJoinRequest
    rw [hG, hA, hT]
  have hG1 : (st.saveMembership { mt with
      status := MStatus.active, approvedAt := some now1,
      approvedBy := some approver }).findGroup gid = some group := hG
  have hfg : ((st.saveMembership { mt with
      status := MStatus.active, approvedAt := some now1,
      approvedBy := some approver }).saveGroup
      { group with memberCount := group.memberCount + 1 }).findGroup gid
      = some { group with memberCount := group.memberCount + 1 } := by
    apply saveGroup_findGroup _ gid group _ hG1
    have : group.id = gid := by simpa using List.find?_some hG1
    exact this
  have hkeyma : (ma.groupId == ({ mt with
      status := MStatus.active, approvedAt := some now1,
      approvedBy := some approver } : Membership).groupId &&
      ma.userId == ({ mt with
      status := MStatus.active, approvedAt := some now1,
      approvedBy := some approver } : Membership).userId) = false := by
    simp only [hAuser, hTfacts.2]
    simp [beq_eq_false_iff_ne, hne]
  obtain ⟨mb, hmb, hmbq⟩ := saveMembership_find_isSome st
    { mt with
      status := MStatus.active, approvedAt := some now1,
      approvedBy := some approver }
    (fun m => m.groupId == gid && m.userId == approver &&
      m.status == MStatus.active &&
      (m.role == MRole.admin || m.role == MRole.moderator)) ma hAmem hAq hkeyma
  have hmb2 : (((st.saveMembership { mt with
      status := MStatus.active, approvedAt := some now1,
      approvedBy := some approver }).saveGroup
      { group with memberCount := group.memberCount + 1 }).memberships.find?
      (fun m => m.groupId == gid && m.userId == approver &&
        m.status == MStatus.active &&
        (m.role == MRole.admin || m.role == MRole.moderator))) = some mb := hmb
  have hnone : ((st.saveMembership { mt with
      status := MStatus.active, approvedAt := some now1,
      approvedBy := some approver }).memberships.find?
      (fun m => m.groupId == gid && m.userId == target &&
        m.status == MStatus.pending)) = none := by
    apply saveMembership_find_none
    · simp
    · intro x hx
      simp only [Bool.and_eq_true, beq_iff_eq] at hx
      simp [hx.1.1, hx.1.2, hTfacts.1, hTfacts.2]
  have hnone2 : (((st.saveMembership { mt with
      status := MStatus.active, approvedAt := some now1,
      approvedBy := some approver }).saveGroup
      { group with memberCount := group.memberCount + 1 }).memberships.find?
      (fun m => m.groupId == gid && m.userId == target &&
        m.status == MStatus.pending)) = none := hnone
  refine ⟨?_, ?_, ?_, ?_⟩
  · rw [hstep1]
  · rw [hstep1]
    show ((((st.saveMembership { mt with
        status := MStatus.active, approvedAt := some now1,
        approvedBy := some approver }).saveGroup
        { group with memberCount := group.memberCount + 1 }).findGroup gid).map
        (fun x => x.memberCount)) = some (group.memberCount + 1)
    rw [hfg]
    rfl
  · rw [hstep1]
    show (approveJoinRequest ((st.saveMembership { mt with
        status := MStatus.active, approvedAt := some now1,
        approvedBy := some approver }).saveGroup
        { group with memberCount := group.memberCount + 1 })
        approver gid target now2).1 = Resp.err 404 "Join request not found"
    unfold approveJoinRequest
    rw [hfg, hmb2, hnone2]
  · rw [hstep1]
    show (approveJoinRequest ((st.saveMembership { mt with
        status := MStatus.active, approvedAt := some now1,
        approvedBy := some approver }).saveGroup
        { group with memberCount := group.memberCount + 1 })
        approver gid target now2).2
      = ((st.saveMembership { mt with
        status := MStatus.active, approvedAt := some now1,
        approvedBy := some approver }).saveGroup
        { group with memberCount := group.memberCount + 1 })
    unfold approveJoinRequest
    rw [hfg, hmb2, hnone2]

/-- C7 witness: on the concrete private-group trace, the first approval
succeeds with memberCount 2, the second answers 404 "Join request not
found" and leaves everything as it was. -/
theorem C7_second_approve_errors_without_recount_witness :
    approveRun1.1 = Resp.ok "Join request approved" ∧
    (approveRun1.2.findGroup 2).map (fun x => x.memberCount) = some 2 ∧
    approveRun2.1 = Resp.err 404 "Join request not found" ∧
    approveRun2.2 = approveRun1.2 :=
  C7_second_approve_errors_without_recount stRequested 2 0 1 2 3
    { id := 2, communityId := 0, createdBy := 0, type := .Private, memberCount := 1 }
    { groupId := 2, userId := 0, status := .active, role := .admin, joinedAt := 0,
      approvedAt := some 0, approvedBy := some 0, bannedAt := none,
      bannedBy := none, banReason := none, leftAt := none, requestMessage := none }
    { groupId := 2, userId := 1, status := .pending, role := .member, joinedAt := 1,
      approvedAt := none, approvedBy := none, bannedAt := none, bannedBy := none,
      banReason := none, leftAt := none, requestMessage := none }
    (by decide) (by decide) (by decide) (by decide)

/-- C8: banning an active non-creator member (by an actor holding the global
ban_users permission) and then unbanning the same member restores the
record's status to active, clears bannedAt/bannedBy/banReason, and — since a
consistent memberCount is at least 1 when an active member exists — leaves
group.memberCount unchanged net (−1 then +1). -/
theorem C8_ban_unban_round_trip (st : St) (gid actor target now : Nat)
    (reason : Option String) (group : Group) (mt : Membership)
    (hG : st.findGroup gid = some group)
    (hGlobal : userHasPermission st.roles actor Perm.ban_users none none = true)
    (hT : st.memberships.find? (fun m => m.groupId == gid &&
        m.userId == target && m.status == MStatus.active) = some mt)
    (hcr : group.createdBy ≠ target)
    (hcons : group.memberCount = st.activeMemberCount gid) :
    (banUserFromGroup st actor gid target now reason).1
        = Resp.ok "User banned successfully" ∧
    (unbanUserFromGroup (banUserFromGroup st actor gid target now reason).2
        actor gid target).1 = Resp.ok "User unbanned successfully" ∧
    ((unbanUserFromGroup (banUserFromGroup st actor gid target now reason).2
        actor gid target).2).findMembership gid target
      = some { mt with
          status := MStatus.active, bannedAt := none,
               bannedBy := none, banReason := none } ∧
    (((unbanUserFromGroup (banUserFromGroup st actor gid target now reason).2
        actor gid target).2).findGroup gid).map (fun x => x.memberCount)
      = some group.memberCount := by
  have hTmem : mt ∈ st.memberships := List.mem_of_find?_eq_some hT
  have hTq : (mt.groupId == gid && mt.userId == target &&
      mt.status == MStatus.active) = true := by
    simpa using List.find?_some hT
  have hTfacts : (mt.groupId = gid ∧ mt.userId = target) ∧
      mt.status = MStatus.active := by
    simp only [Bool.and_eq_true, beq_iff_eq] at hTq
    exact hTq
  have hbeqcr : (group.createdBy == target) = false := by
    simp [beq_eq_false_iff_ne, hcr]
  have hpos : 1 ≤ group.memberCount := by
    rw [hcons]
    unfold St.activeMemberCount
    have hmemf : mt ∈ st.memberships.filter (fun m => m.groupId == gid &&
        m.status == MStatus.active) :=
      List.mem_filter.mpr ⟨hTmem, by simp [hTfacts.1.1, hTfacts.2]⟩
    exact List.length_pos.mpr (List.ne_nil_of_mem hmemf)
  have hstep1 : banUserFromGroup st actor gid target now reason =
      (Resp.ok "User banned successfully",
       (st.saveMembership { mt with
          status := MStatus.banned, bannedAt := some now,
          bannedBy := some actor, banReason := reason }).saveGroup
         { group with memberCount := group.memberCount - 1 }) := by
    unfold banUserFromGroup
    rw [hGlobal]
    simp only [Bool.not_true, Bool.false_and, Bool.false_eq_true, if_false]
    rw [hT, hG]
    simp only [hbeqcr, Bool.false_eq_true, if_false]
  have hG1 : (st.saveMembership { mt with
      status := MStatus.banned, bannedAt := some now,
      bannedBy := some actor, banReason := reason }).findGroup gid
      = some group := hG
  have hfgB : ((st.saveMembership { mt with
      status := MStatus.banned, bannedAt := some now,
      bannedBy := some actor, banReason := reason }).saveGroup
      { group with memberCount := group.memberCount - 1 }).findGroup gid
      = some { group with memberCount := group.memberCount - 1 } := by
    apply saveGroup_findGroup _ gid group _ hG1
    have : group.id = gid := by simpa using List.find?_some hG1
    exact this
  have hGlobal2 : userHasPermission (((st.saveMembership { mt with
      status := MStatus.banned, bannedAt := some now,
      bannedBy := some actor, banReason := reason }).saveGroup
      { group with memberCount := group.memberCount - 1 })).roles actor
      Perm.ban_users none none = true := hGlobal
  have hbanned : ((st.saveMembership { mt with
      status := MStatus.banned, bannedAt := some now,
      bannedBy := some actor, banReason := reason }).memberships.find?
      (fun m => m.groupId == gid && m.userId == target &&
        m.status == MStatus.banned))
      = some { mt with
        status := MStatus.banned, bannedAt := some now,
        bannedBy := some actor, banReason := reason } := by
    apply saveMembership_find_some
    · simp [hTfacts.1.1, hTfacts.1.2]
    · intro x hx
      simp only [Bool.and_eq_true, beq_iff_eq] at hx
      simp [hx.1.1, hx.1.2, hTfacts.1.1, hTfacts.1.2]
    · exact ⟨mt, hTmem, by simp⟩
  have hbanned2 : (((st.saveMembership { mt with
      status := MStatus.banned, bannedAt := some now,
      bannedBy := some actor, banReason := reason }).saveGroup
      { group with memberCount := group.memberCount - 1 }).memberships.find?
      (fun m => m.groupId == gid && m.userId == target &&
        m.status == MStatus.banned))
      = some { mt with
        status := MStatus.banned, bannedAt := some now,
        bannedBy := some actor, banReason := reason } := hbanned
  refine ⟨?_, ?_, ?_, ?_⟩
  · rw [hstep1]
  · rw [hstep1]
    show (unbanUserFromGroup ((st.saveMembership { mt with
        status := MStatus.banned, bannedAt := some now,
        bannedBy := some actor, banReason := reason }).saveGroup
        { group with memberCount := group.memberCount - 1 }) actor gid target).1
      = Resp.ok "User unbanned successfully"
    unfold unbanUserFromGroup
    rw [hGlobal2]
    simp only [Bool.not_true, Bool.false_and, Bool.false_eq_true, if_false,
      hbanned2]
    have hfgB2 : ((((st.saveMembership { mt with
        status := MStatus.banned, bannedAt := some now,
        bannedBy := some actor, banReason := reason }).saveGroup
        { group with memberCount := group.memberCount - 1 }).saveMembership
        { mt with
          status := MStatus.active, bannedAt := none,
          bannedBy := none, banReason := none }).findGroup gid)
        = some { group with memberCount := group.memberCount - 1 } := hfgB
    simp only [hfgB2]
  · rw [hstep1]
    have hfinal : ((((st.saveMembership { mt with
        status := MStatus.banned, bannedAt := some now,
        bannedBy := some actor, banReason := reason }).saveGroup
        { group with memberCount := group.memberCount - 1 }).saveMembership
        { mt with
          status := MStatus.active, bannedAt := none,
          bannedBy := none, banReason := none }).memberships.find?
        (fun m => m.groupId == gid && m.userId == target))
        = some { mt with
          status := MStatus.active, bannedAt := none,
                 bannedBy := none, banReason := none } := by
      apply saveMembership_find_some
      · simp [hTfacts.1.1, hTfacts.1.2]
      · intro x hx
        simp only [Bool.and_eq_true, beq_iff_eq] at hx
        simp [hx.1, hx.2, hTfacts.1.1, hTfacts.1.2]
      · refine ⟨{ mt with
          status := MStatus.banned, bannedAt := some now,
          bannedBy := some actor, banReason := reason }, ?_, by simp⟩
        exact List.mem_map.mpr ⟨mt, hTmem, by simp⟩
    show (unbanUserFromGroup ((st.saveMembership { mt with
        status := MStatus.banned, bannedAt := some now,
        bannedBy := some actor, banReason := reason }).saveGroup
        { group with memberCount := group.memberCount - 1 }) actor gid target).2.findMembership
        gid target
      = some { mt with
          status := MStatus.active, bannedAt := none,
               bannedBy := none, banReason := none }
    unfold unbanUserFromGroup
    rw [hGlobal2]
    simp only [Bool.not_true, Bool.false_and, Bool.false_eq_true, if_false,
      hbanned2]
    have hfgB2 : ((((st.saveMembership { mt with
        status := MStatus.banned, bannedAt := some now,
        bannedBy := some actor, banReason := reason }).saveGroup
        { group with memberCount := group.memberCount - 1 }).saveMembership
        { mt with
          status := MStatus.active, bannedAt := none,
          bannedBy := none, banReason := none }).findGroup gid)
        = some { group with memberCount := group.memberCount - 1 } := hfgB
    simp only [hfgB2]
    exact hfinal
  · rw [hstep1]
    show ((unbanUserFromGroup ((st.saveMembership { mt with
        status := MStatus.banned, bannedAt := some now,
        bannedBy := some actor, banReason := reason }).saveGroup
        { group with memberCount := group.memberCount - 1 }) actor gid target).2.findGroup
        gid).map (fun x => x.memberCount)
      = some group.memberCount
    unfold unbanUserFromGroup
    rw [hGlobal2]
    simp only [Bool.not_true, Bool.false_and, Bool.false_eq_true, if_false,
      hbanned2]
    have hfgB2 : ((((st.saveMembership { mt with
        status := MStatus.banned, bannedAt := some now,
        bannedBy := some actor, banReason := reason }).saveGroup
        { group with memberCount := group.memberCount - 1 }).saveMembership
        { mt with
          status := MStatus.active, bannedAt := none,
          bannedBy := none, banReason := none }).findGroup gid)
        = some { group with memberCount := group.memberCount - 1 } := hfgB
    simp only [hfgB2]
    have hlast : (((((st.saveMembership { mt with
        status := MStatus.banned, bannedAt := some now,
        bannedBy := some actor, banReason := reason }).saveGroup
        { group with memberCount := group.memberCount - 1 }).saveMembership
        { mt with
          status := MStatus.active, bannedAt := none,
          bannedBy := none, banReason := none }).saveGroup
        { group with memberCount := group.memberCount - 1 + 1 }).findGroup gid)
        = some { group with memberCount := group.memberCount - 1 + 1 } := by
      apply saveGroup_findGroup _ gid { group with memberCount := group.memberCount - 1 } _ hfgB2
      have : group.id = gid := by simpa using List.find?_some hG1
      exact this
    simp only [hlast]
    simp [Nat.sub_add_cancel hpos]

/-- C8 witness: in `stWithAdmin` (user 1 active in group 1, memberCount 2
consistent, actor 0 a platform admin) a ban followed by an unban restores
the active record with cleared ban fields and memberCount 2. -/
theorem C8_ban_unban_round_trip_witness :
    (banUserFromGroup stWithAdmin 0 1 1 5 (some "spam")).1
        = Resp.ok "User banned successfully" ∧
    (unbanUserFromGroup (banUserFromGroup stWithAdmin 0 1 1 5 (some "spam")).2
        0 1 1).1 = Resp.ok "User unbanned successfully" ∧
    ((unbanUserFromGroup (banUserFromGroup stWithAdmin 0 1 1 5 (some "spam")).2
        0 1 1).2).findMembership 1 1
      = some { groupId := 1, userId := 1, status := MStatus.active,
               role := .member, joinedAt := 1, approvedAt := some 1,
               approvedBy := some 1, bannedAt := none, bannedBy := none,
               banReason := none, leftAt := none, requestMessage := none } ∧
    (((unbanUserFromGroup (banUserFromGroup stWithAdmin 0 1 1 5 (some "spam")).2
        0 1 1).2).findGroup 1).map (fun x => x.memberCount) = some 2 :=
  C8_ban_unban_round_trip stWithAdmin 1 0 1 5 (some "spam")
    { id := 1, communityId := 0, createdBy := 0, type := .Public, memberCount := 2 }
    { groupId := 1, userId := 1, status := .active, role := .member, joinedAt := 1,
      approvedAt := some 1, approvedBy := some 1, bannedAt := none,
      bannedBy := none, banReason := none, leftAt := none, requestMessage := none }
    (by decide) (by decide) (by decide) (by decide) (by decide)

end ParentingBackend
